import Mathlib

/-!
Verification development for the Fyers market-data relay (proxy.js).

The relay is embedded shallowly as pure Lean functions:
* the protobuf wire decoder for the three-field MarketData schema,
* the /direct-login HTTP handler as a pure function of the request, the
  environment and the provider responses,
* the WebSocket relay (upstream connection management, client message
  handling, fan-out) as a deterministic step function on an explicit state,
  driven by events (client connect/message/close, upstream open/frame/close).
-/

namespace FyersProxy

instance {ε α : Type} [DecidableEq ε] [DecidableEq α] : DecidableEq (Except ε α) := fun x y =>
  match x, y with
  | .ok a, .ok b => if h : a = b then .isTrue (by simp [h]) else .isFalse (by simp [h])
  | .error a, .error b => if h : a = b then .isTrue (by simp [h]) else .isFalse (by simp [h])
  | .ok _, .error _ => .isFalse (by simp)
  | .error _, .ok _ => .isFalse (by simp)

/-- JavaScript truthiness of an optional string value: `undefined`/`null`
and the empty string are falsy, every other string is truthy.  Used to model
checks such as `!fyersId` and `!tokenToUse` in proxy.js. -/
def truthy : Option String → Bool
  | none => false
  | some s => !s.isEmpty

/-- Process environment of proxy.js: FYERS_APP_ID, FYERS_SECRET_KEY and PORT
are read from `process.env` (proxy.js lines 18-19 and 115), each possibly
absent. -/
structure Env where
  appId : Option String
  secretKey : Option String
  port : Option Nat
deriving Repr, DecidableEq

/-- The decoded MarketData message of the proto schema embedded in proxy.js:
`int64 timestamp = 1; double ltp = 2; int64 volume = 3`.  The int64 fields
are stored as their 64-bit bit patterns (naturals below `2 ^ 64`); `ltp` is
stored as the raw IEEE-754 bit pattern read from the wire (the numeric value
of the double is never inspected by the relay, which only re-serializes the
record). -/
structure MarketData where
  timestamp : Nat
  ltp : Nat
  volume : Nat
deriving Repr, DecidableEq

/-- Decoding failure of an upstream binary frame. -/
inductive DecodeError
  | truncated
  | invalidWireType (w : Nat)
  | fuelExhausted
deriving Repr, DecidableEq

/-- Read a base-128 varint from the byte list, returning its value and the
remaining bytes; fails on a truncated varint.  Bytes are normalized modulo
256. -/
def readVarint : List Nat → Option (Nat × List Nat)
  | [] => none
  | b :: rest =>
    let b := b % 256
    if b < 128 then some (b, rest)
    else
      match readVarint rest with
      | some (v, rest2) => some (b % 128 + 128 * v, rest2)
      | none => none

/-- Read 8 bytes little-endian as a 64-bit pattern (the wire form of a
protobuf `double` / fixed64 value). -/
def readFixed64 (bytes : List Nat) : Option (Nat × List Nat) :=
  if 8 ≤ bytes.length then
    some ((bytes.take 8).reverse.foldl (fun acc b => acc * 256 + b % 256) 0, bytes.drop 8)
  else none

/-- Skip one field value of the given wire type, exactly as the protobuf
runtime used by proxy.js does for unknown fields: wire type 0 skips a
varint, 1 skips 8 bytes, 2 skips a length-delimited chunk, 5 skips 4 bytes,
3 skips a (deprecated) group by skipping nested fields until an end-group
tag (wire type 4), and any other wire type is an error.  Truncation is an
error.  `fuel` bounds the group recursion; `bytes.length + 1` always
suffices since every step consumes at least one byte. -/
def skipType : Nat → Nat → List Nat → Except DecodeError (List Nat)
  | 0, _, _ => .error .fuelExhausted
  | fuel + 1, wire, bytes =>
    if wire = 0 then
      match readVarint bytes with
      | some (_, r) => .ok r
      | none => .error .truncated
    else if wire = 1 then
      if 8 ≤ bytes.length then .ok (bytes.drop 8) else .error .truncated
    else if wire = 2 then
      match readVarint bytes with
      | some (len, r) => if len ≤ r.length then .ok (r.drop len) else .error .truncated
      | none => .error .truncated
    else if wire = 5 then
      if 4 ≤ bytes.length then .ok (bytes.drop 4) else .error .truncated
    else if wire = 3 then
      match readVarint bytes with
      | some (tag, r) =>
        if tag % 8 = 4 then .ok r
        else
          match skipType fuel (tag % 8) r with
          | .ok r2 => skipType fuel 3 r2
          | .error e => .error e
      | none => .error .truncated
    else .error (.invalidWireType wire)

/-- Decoding loop for MarketData, following the decoder the protobuf runtime
generates from the schema in proxy.js: read a tag varint, dispatch on the
field number only (`tag / 8`; the declared wire type of a known field is not
re-checked), read varints for fields 1 and 3 and a fixed 8-byte double for
field 2, and skip any other field number by its wire type.  An empty
remainder yields the message accumulated so far (an empty frame decodes to
the all-zero default message). -/
def decodeLoop : Nat → MarketData → List Nat → Except DecodeError MarketData
  | 0, _, _ => .error .fuelExhausted
  | _ + 1, md, [] => .ok md
  | fuel + 1, md, b :: bs =>
    match readVarint (b :: bs) with
    | none => .error .truncated
    | some (tag, r) =>
      if tag / 8 = 1 then
        match readVarint r with
        | some (v, r2) => decodeLoop fuel { md with timestamp := v % 2 ^ 64 } r2
        | none => .error .truncated
      else if tag / 8 = 2 then
        match readFixed64 r with
        | some (v, r2) => decodeLoop fuel { md with ltp := v } r2
        | none => .error .truncated
      else if tag / 8 = 3 then
        match readVarint r with
        | some (v, r2) => decodeLoop fuel { md with volume := v % 2 ^ 64 } r2
        | none => .error .truncated
      else
        match skipType (fuel + 1) (tag % 8) r with
        | .ok r2 => decodeLoop fuel md r2
        | .error e => .error e

/-- `MarketData.decode(msg)` of proxy.js as a pure function on byte lists. -/
def MarketData.decode (frame : List Nat) : Except DecodeError MarketData :=
  decodeLoop (frame.length + 1) ⟨0, 0, 0⟩ frame

/-- The list of top-level field numbers occurring in a frame, traversing the
frame with the same tag reader and value skipper as the decoder; `none` when
the frame has no well-formed tag/value structure.  Used to state that a
frame mentions only field numbers outside the MarketData schema. -/
def frameFieldNumbersLoop : Nat → List Nat → Option (List Nat)
  | 0, _ => none
  | _ + 1, [] => some []
  | fuel + 1, b :: bs =>
    match readVarint (b :: bs) with
    | none => none
    | some (tag, r) =>
      match skipType (fuel + 1) (tag % 8) r with
      | .ok r2 =>
        match frameFieldNumbersLoop fuel r2 with
        | some fs => some (tag / 8 :: fs)
        | none => none
      | .error _ => none

/-- Top-level field numbers of a frame. -/
def frameFieldNumbers (frame : List Nat) : Option (List Nat) :=
  frameFieldNumbersLoop (frame.length + 1) frame

example : MarketData.decode [8, 1] = .ok ⟨1, 0, 0⟩ := by decide
example : MarketData.decode [8] = .error .truncated := by decide
example : MarketData.decode [32, 1] = .ok ⟨0, 0, 0⟩ := by decide
example : frameFieldNumbers [32, 1] = some [4] := by decide
example :
    MarketData.decode [8, 1, 17, 0, 0, 0, 0, 0, 0, 0, 64, 24, 2]
      = .ok ⟨1, 64 * 256 ^ 7, 2⟩ := by decide

/-! ## The /direct-login handler -/

/-- Login stages of the direct login flow, in the order the handler issues
their provider round-trips. -/
inductive Stage
  | OTP | TOTP | PIN | TOKEN
deriving Repr, DecidableEq

/-- The JSON body of a resolved provider response, as read by the handler:
the status field `s`, and the optional `request_key`, `access_token` and
`message` fields. -/
structure ProviderResp where
  s : String
  request_key : Option String
  access_token : Option String
  message : Option String
deriving Repr, DecidableEq

/-- Result of one provider HTTP round-trip: either a resolved response with
a JSON body, or a rejected promise (network failure or non-2xx status); in
the latter case the string is the message the catch block extracts
(`err.response?.data?.message || err.message`). -/
inductive StageResult
  | resp (r : ProviderResp)
  | netErr (errorMessage : String)
deriving Repr, DecidableEq

/-- The provider as an oracle: what each of the four login endpoints would
answer if called during this request. -/
structure Provider where
  send_login_otp : StageResult
  verify_totp : StageResult
  verify_pin : StageResult
  access_token : StageResult
deriving Repr, DecidableEq

/-- The /direct-login request body fields. -/
structure LoginReq where
  fyersId : Option String
  pin : Option String
  totpSecret : Option String
deriving Repr, DecidableEq

/-- The JSON body the handler responds with: either the token object or an
error object. -/
inductive LoginBody
  | okTok (access_token : String)
  | err (error : String)
deriving Repr, DecidableEq

/-- The JSON field names present in the serialized response body for each
shape the handler constructs. -/
def LoginBody.fieldNames : LoginBody → List String
  | .okTok _ => ["access_token"]
  | .err _ => ["error"]

/-- Observable outcome of one /direct-login request: the HTTP status and
body sent to the caller, the value of the process-wide `fyersAccessToken`
variable after the request, and which provider endpoints were actually
called, in order. -/
structure LoginOutcome where
  status : Nat
  body : LoginBody
  newToken : Option String
  stagesIssued : List Stage
deriving Repr, DecidableEq

/-- The JavaScript `a || b` fallback on an optional message string: the
fallback is used when the message is absent or empty. -/
def orElseMsg (m : Option String) (fallback : String) : String :=
  match m with
  | some msg => if msg.isEmpty then fallback else msg
  | none => fallback

/-- The message the catch block reports for a rejected provider round-trip
(`err.response?.data?.message || err.message || "An unknown error..."`). -/
def catchMsg (m : String) : String :=
  if m.isEmpty then "An unknown error occurred during login." else m

/-- The /direct-login handler of proxy.js as a pure function: validates the
body, checks the credential configuration, then performs the four provider
round-trips in sequence, each gated on the previous one reporting status
`ok` together with a truthy key; any thrown error is caught and reported as
a 500 with the extracted message.  `curTok` is the value of the process-wide
`fyersAccessToken` before the request. -/
def directLogin (env : Env) (prov : Provider) (req : LoginReq) (curTok : Option String) :
    LoginOutcome :=
  if !truthy req.fyersId || !truthy req.pin || !truthy req.totpSecret then
    ⟨400, .err "Fyers ID, PIN, and TOTP Secret are required.", curTok, []⟩
  else if !truthy env.appId || !truthy env.secretKey then
    ⟨500, .err "Server is not configured. Missing App ID or Secret Key.", curTok, []⟩
  else
    match prov.send_login_otp with
    | .netErr m => ⟨500, .err (catchMsg m), curTok, [.OTP]⟩
    | .resp r1 =>
      if r1.s != "ok" || !truthy r1.request_key then
        ⟨500, .err (orElseMsg r1.message "Failed to get request_key from send_login_otp."),
          curTok, [.OTP]⟩
      else
        match prov.verify_totp with
        | .netErr m => ⟨500, .err (catchMsg m), curTok, [.OTP, .TOTP]⟩
        | .resp r2 =>
          if r2.s != "ok" || !truthy r2.request_key then
            ⟨500, .err (orElseMsg r2.message "TOTP verification failed."),
              curTok, [.OTP, .TOTP]⟩
          else
            match prov.verify_pin with
            | .netErr m => ⟨500, .err (catchMsg m), curTok, [.OTP, .TOTP, .PIN]⟩
            | .resp r3 =>
              if r3.s != "ok" || !truthy r3.request_key then
                ⟨500, .err (orElseMsg r3.message "PIN verification failed."),
                  curTok, [.OTP, .TOTP, .PIN]⟩
              else
                match prov.access_token with
                | .netErr m => ⟨500, .err (catchMsg m), curTok, [.OTP, .TOTP, .PIN, .TOKEN]⟩
                | .resp r4 =>
                  if r4.s != "ok" || !truthy r4.access_token then
                    ⟨500, .err (orElseMsg r4.message "Failed to retrieve final access token."),
                      curTok, [.OTP, .TOTP, .PIN, .TOKEN]⟩
                  else
                    ⟨200, .okTok (r4.access_token.getD ""), some (r4.access_token.getD ""),
                      [.OTP, .TOTP, .PIN, .TOKEN]⟩

/-- Startup of proxy.js: the credential env vars are read into constants
with no presence check (lines 18-19) and `app.listen` is called
unconditionally (line 115) on the configured port, defaulting to 10000.
There is no code path on which the process declines to listen. -/
structure StartOutcome where
  started : Bool
  port : Nat
deriving Repr, DecidableEq

/-- The startup sequence as a function of the environment. -/
def startServer (env : Env) : StartOutcome :=
  ⟨true, env.port.getD 10000⟩

/-! ## The WebSocket relay -/

/-- The `readyState` values of a ws socket. -/
inductive ReadyState
  | CONNECTING | OPEN | CLOSING | CLOSED
deriving Repr, DecidableEq

/-- The upstream Fyers socket held in the `fyersWS` variable: its ready
state, the token its URL was built from, and the instruments whose deferred
`subscribeAction` callbacks are registered on it via `once(open, ...)`, in
registration order.  A one-shot open listener dies with its socket and is
removed when it fires. -/
structure UpSocket where
  readyState : ReadyState
  token : String
  pendingOpen : List String
deriving Repr, DecidableEq

/-- Control frames the relay sends upstream over `fyersWS`. -/
inductive UpMsg
  | SUB_DATA (symbol : List String)
  | UNSUB_DATA (symbol : List String)
deriving Repr, DecidableEq

/-- Messages the relay sends to a downstream client, by JSON shape:
`tick` is the object with fields `type` (value "tick") and `data`;
`typedError` is the object with fields `type` (value "error") and `message`;
`bareError` is the object with the single field `error` (no `type` field),
the shape built in the token-missing branch of the subscribe handler. -/
inductive DownMsg
  | tick (data : MarketData)
  | typedError (message : String)
  | bareError (message : String)
deriving Repr, DecidableEq

/-- The JSON field names present in the serialized envelope of each
downstream message shape. -/
def DownMsg.fieldNames : DownMsg → List String
  | .tick _ => ["type", "data"]
  | .typedError _ => ["type", "message"]
  | .bareError _ => ["error"]

/-- One downstream client socket: its identity, the instruments it has
asked to subscribe to and not since unsubscribed (bookkeeping the relay
itself does not maintain — proxy.js stores bare sockets in `clientSockets`;
the field is needed to state the fan-out filtering claims and has no effect
on behavior), and the messages sent to it, in order. -/
structure Client where
  id : Nat
  subs : List String
  outbox : List DownMsg
deriving Repr, DecidableEq

/-- The mutable process state of the relay part of proxy.js: the
process-wide access token, the `fyersWS` variable, the `clientSockets` set
(with per-client outboxes), the control frames sent upstream so far, and a
count of `new WebSocket(...)` constructions performed (to state how many
upstream sockets were ever created). -/
structure RelayState where
  fyersAccessToken : Option String
  fyersWS : Option UpSocket
  clientSockets : List Client
  upstreamSent : List UpMsg
  socketsCreated : Nat
deriving Repr, DecidableEq

/-- A message from a downstream client after `JSON.parse`: a subscribe
carrying an instrument and an optional access token, an unsubscribe
carrying an instrument, any other well-formed JSON (which matches neither
branch and is ignored), or a frame on which `JSON.parse` throws (caught and
logged). -/
inductive ClientMsg
  | subscribe (instrument : String) (accessToken : Option String)
  | unsubscribe (instrument : String)
  | other
  | malformed
deriving Repr, DecidableEq

/-- The events that drive the relay: a client connecting, sending a message
or disconnecting, and the upstream socket opening, delivering a binary
frame, closing with a code, or reporting an error.  Binary frames and the
open event are delivered by the transport only for a live upstream socket. -/
inductive Event
  | clientConnect (id : Nat)
  | clientMsg (id : Nat) (msg : ClientMsg)
  | clientClose (id : Nat)
  | upstreamOpen
  | upstreamFrame (frame : List Nat)
  | upstreamClose (code : Nat)
  | upstreamError
deriving Repr, DecidableEq

/-- The guard of `connectToFyers`: true when `fyersWS` is non-null and its
`readyState` is OPEN or CONNECTING. -/
def connGuard : Option UpSocket → Bool
  | some sock => sock.readyState = .OPEN || sock.readyState = .CONNECTING
  | none => false

/-- `connectToFyers(token)` of proxy.js: returns immediately when a
connection is already open or in progress; otherwise splits `FYERS_APP_ID`
(throwing a TypeError, modelled as `.error`, when the app id is absent) and
constructs a fresh CONNECTING socket with no pending open listeners. -/
def connectToFyers (env : Env) (token : String) (s : RelayState) : Except Unit RelayState :=
  if connGuard s.fyersWS then .ok s
  else
    match env.appId with
    | none => .error ()
    | some _ =>
      .ok { s with
        fyersWS := some ⟨.CONNECTING, token, []⟩,
        socketsCreated := s.socketsCreated + 1 }

/-- `client.send(...)` targeted at one client: appends the message to the
outbox of the client with the given id, if registered. -/
def sendToClient (cs : List Client) (id : Nat) (m : DownMsg) : List Client :=
  cs.map fun c => if c.id = id then { c with outbox := c.outbox ++ [m] } else c

/-- Record in the bookkeeping that a client asked to subscribe to an
instrument (set semantics: no duplicates). -/
def recordSub (cs : List Client) (id : Nat) (instr : String) : List Client :=
  cs.map fun c =>
    if c.id = id then
      { c with subs := if c.subs.contains instr then c.subs else c.subs ++ [instr] }
    else c

/-- Record in the bookkeeping that a client asked to unsubscribe from an
instrument. -/
def recordUnsub (cs : List Client) (id : Nat) (instr : String) : List Client :=
  cs.map fun c => if c.id = id then { c with subs := c.subs.filter (· != instr) } else c

/-- The ws `message` handler of proxy.js for one parsed client message.
For a subscribe: resolve the token (`parsedMsg.accessToken ||
fyersAccessToken`); if falsy, reply with the bare error object and stop;
otherwise call `connectToFyers` (a thrown TypeError is caught by the
try/catch of the handler, so the rest of the branch is skipped), then send
SUB_DATA at once when the socket is OPEN or register the one-shot
`subscribeAction` via `once(open, ...)`.  For an unsubscribe: send
UNSUB_DATA only when the socket is OPEN — there is no else branch, so an
unsubscribe while not OPEN sends nothing and defers nothing.  Other and
malformed messages leave the state unchanged. -/
def handleClientMsg (env : Env) (id : Nat) (m : ClientMsg) (s : RelayState) : RelayState :=
  match m with
  | .subscribe instr msgTok =>
    let tokenToUse := if truthy msgTok then msgTok else s.fyersAccessToken
    if !truthy tokenToUse then
      { s with clientSockets :=
          sendToClient s.clientSockets id (.bareError "No access token available for subscription.") }
    else
      let s1 := { s with clientSockets := recordSub s.clientSockets id instr }
      match connectToFyers env (tokenToUse.getD "") s1 with
      | .error _ => s1
      | .ok s2 =>
        match s2.fyersWS with
        | some sock =>
          if sock.readyState = .OPEN then
            { s2 with upstreamSent := s2.upstreamSent ++ [.SUB_DATA [instr]] }
          else
            { s2 with fyersWS := some { sock with pendingOpen := sock.pendingOpen ++ [instr] } }
        | none => s2
  | .unsubscribe instr =>
    let s1 := { s with clientSockets := recordUnsub s.clientSockets id instr }
    match s1.fyersWS with
    | some sock =>
      if sock.readyState = .OPEN then
        { s1 with upstreamSent := s1.upstreamSent ++ [.UNSUB_DATA [instr]] }
      else s1
    | none => s1
  | .other => s
  | .malformed => s

/-- One event of the relay.  Client connect adds the socket to
`clientSockets`; client close deletes it.  The upstream open event (emitted
once by a CONNECTING socket, after its `readyState` has become OPEN) fires
every registered one-shot open listener in registration order, each of
which re-checks that `fyersWS` is OPEN and sends its SUB_DATA frame; the
listeners are then gone.  An upstream binary frame (delivered only while
the socket is open) is decoded; on success the tick envelope is sent to
every client in `clientSockets`; a decode error is caught and logged and
nothing else happens.  The upstream close handler nulls `fyersWS` and sends
the fixed typed error envelope to every client; it opens no new socket.
The upstream error handler only logs. -/
def step (env : Env) (s : RelayState) (e : Event) : RelayState :=
  match e with
  | .clientConnect id =>
    if s.clientSockets.any (fun c => c.id == id) then s
    else { s with clientSockets := s.clientSockets ++ [⟨id, [], []⟩] }
  | .clientMsg id m => handleClientMsg env id m s
  | .clientClose id => { s with clientSockets := s.clientSockets.filter (fun c => c.id != id) }
  | .upstreamOpen =>
    match s.fyersWS with
    | some sock =>
      if sock.readyState = .CONNECTING then
        { s with
          fyersWS := some { sock with readyState := .OPEN, pendingOpen := [] },
          upstreamSent := s.upstreamSent ++ sock.pendingOpen.map (fun i => .SUB_DATA [i]) }
      else s
    | none => s
  | .upstreamFrame frame =>
    match s.fyersWS with
    | some sock =>
      if sock.readyState = .OPEN then
        match MarketData.decode frame with
        | .ok md =>
          { s with clientSockets :=
              s.clientSockets.map fun c => { c with outbox := c.outbox ++ [.tick md] } }
        | .error _ => s
      else s
    | none => s
  | .upstreamClose _ =>
    match s.fyersWS with
    | some _ =>
      { s with
        fyersWS := none,
        clientSockets :=
          s.clientSockets.map fun c =>
            { c with outbox := c.outbox ++ [.typedError "Fyers connection lost."] } }
    | none => s
  | .upstreamError => s

/-- Run the relay over a list of events. -/
def run (env : Env) (s : RelayState) (es : List Event) : RelayState :=
  es.foldl (step env) s

/-- Iterated `connectToFyers` calls (a rejected call leaves the state as it
was). -/
def connectIter (env : Env) (token : String) : Nat → RelayState → RelayState
  | 0, s => s
  | n + 1, s =>
    match connectToFyers env token s with
    | .ok s2 => connectIter env token n s2
    | .error _ => connectIter env token n s

/-! ## Fixtures -/

/-- A configured environment. -/
def envA : Env := ⟨some "APPID-100", some "SECRETKEY", some 10000⟩

/-- The initial relay state: no token, no upstream socket, no clients. -/
def s0 : RelayState := ⟨none, none, [], [], 0⟩

/-- A relay state with an open upstream socket and two connected clients:
client 0 subscribed to one instrument, client 1 subscribed to nothing. -/
def sOpenW : RelayState :=
  ⟨none, some ⟨.OPEN, "tok123", []⟩, [⟨0, ["NSE:SBIN-EQ"], []⟩, ⟨1, [], []⟩], [], 1⟩

/-- Two clients connect, client 0 subscribes with a token, the upstream
socket opens, and one upstream binary frame arrives. -/
def traceC1 : List Event :=
  [.clientConnect 0, .clientConnect 1,
   .clientMsg 0 (.subscribe "NSE:SBIN-EQ" (some "tok123")),
   .upstreamOpen,
   .upstreamFrame [8, 1]]

/-! ## Claims -/

/-- C1 counterexample: client 1 never subscribed to anything (its
subscription set is empty), yet the decoded tick of the upstream frame is
delivered to it — the frame handler iterates over all of `clientSockets`
with no instrument filtering, so a tick reaches consumers that do not list
its instrument (whatever that instrument may be) among their
subscriptions. -/
theorem c1_counterexample :
    ((run envA s0 traceC1).clientSockets =
      [⟨0, ["NSE:SBIN-EQ"], [.tick ⟨1, 0, 0⟩]⟩, ⟨1, [], [.tick ⟨1, 0, 0⟩]⟩]) ∧
    Client.mk 1 [] [.tick ⟨1, 0, 0⟩] ∈ (run envA s0 traceC1).clientSockets := by
  decide

/-- C1 (amended): the fan-out is unfiltered — every decoded tick is sent to
every currently registered consumer regardless of the
subscriptions, and the upstream handle is unchanged. -/
theorem c1_broadcast_unfiltered (env : Env) (s : RelayState) (frame : List Nat)
    (md : MarketData) (sock : UpSocket) (hws : s.fyersWS = some sock)
    (hopen : sock.readyState = .OPEN) (hdec : MarketData.decode frame = .ok md) :
    (step env s (.upstreamFrame frame)).clientSockets
      = s.clientSockets.map (fun c => { c with outbox := c.outbox ++ [.tick md] }) ∧
    (step env s (.upstreamFrame frame)).fyersWS = s.fyersWS := by
  simp [step, hws, hopen, hdec]

/-- Closed instance of the amended C1 theorem. -/
theorem c1_broadcast_unfiltered_witness :
    (step envA sOpenW (.upstreamFrame [8, 1])).clientSockets
      = sOpenW.clientSockets.map (fun c => { c with outbox := c.outbox ++ [.tick ⟨1, 0, 0⟩] }) ∧
    (step envA sOpenW (.upstreamFrame [8, 1])).fyersWS = sOpenW.fyersWS :=
  c1_broadcast_unfiltered envA sOpenW [8, 1] ⟨1, 0, 0⟩ ⟨.OPEN, "tok123", []⟩ rfl rfl (by decide)

/-- C2: starting from Disconnected (`fyersWS` null) with the app id
configured, any number of consecutive connect requests creates exactly one
upstream socket: the first call transitions to a CONNECTING socket and
increments the construction count by one, the whole iterated sequence ends
in that same state, and any connect call made while a socket is CONNECTING
or OPEN returns without touching the state. -/
theorem c2_single_upstream_connection (env : Env) (token : String) (s : RelayState)
    (a : String) (hA : env.appId = some a) (hD : s.fyersWS = none) (n : Nat) :
    connectIter env token (n + 1) s
      = { s with fyersWS := some ⟨.CONNECTING, token, []⟩,
                 socketsCreated := s.socketsCreated + 1 } ∧
    (connectIter env token (n + 1) s).socketsCreated = s.socketsCreated + 1 ∧
    (∀ t2 s2 sock, s2.fyersWS = some sock →
      sock.readyState = .CONNECTING ∨ sock.readyState = .OPEN →
      connectToFyers env t2 s2 = .ok s2) := by
  have noop : ∀ t2 s2 sock, s2.fyersWS = some sock →
      sock.readyState = .CONNECTING ∨ sock.readyState = .OPEN →
      connectToFyers env t2 s2 = .ok s2 := by
    intro t2 s2 sock h hrs
    rcases hrs with h1 | h1 <;> simp [connectToFyers, connGuard, h, h1]
  have hfirst : connectToFyers env token s
      = .ok { s with fyersWS := some ⟨.CONNECTING, token, []⟩,
                     socketsCreated := s.socketsCreated + 1 } := by
    simp [connectToFyers, connGuard, hD, hA]
  have hfix : ∀ m s3, connectToFyers env token s3 = .ok s3 →
      connectIter env token m s3 = s3 := by
    intro m
    induction m with
    | zero => intro s3 _; simp [connectIter]
    | succ k ih =>
      intro s3 h
      simp only [connectIter, h]
      exact ih s3 h
  have hmain : connectIter env token (n + 1) s
      = { s with fyersWS := some ⟨.CONNECTING, token, []⟩,
                 socketsCreated := s.socketsCreated + 1 } := by
    simp only [connectIter, hfirst]
    exact hfix n _ (noop token _ ⟨.CONNECTING, token, []⟩ rfl (Or.inl rfl))
  exact ⟨hmain, by rw [hmain], noop⟩

/-- Closed instance of the C2 theorem: three consecutive connect requests
from the initial state create exactly one socket. -/
theorem c2_single_upstream_connection_witness :
    connectIter envA "tok123" 3 s0
      = { s0 with fyersWS := some ⟨.CONNECTING, "tok123", []⟩,
                  socketsCreated := s0.socketsCreated + 1 } :=
  (c2_single_upstream_connection envA "tok123" s0 "APPID-100" rfl rfl 2).1

/-- A relay state with a CONNECTING upstream socket and one client with no
recorded subscriptions. -/
def sConnW : RelayState :=
  ⟨none, some ⟨.CONNECTING, "tok123", []⟩, [⟨0, [], []⟩], [], 1⟩

/-- C3: a subscribe processed while the upstream socket is CONNECTING sends
nothing upstream at processing time and registers exactly one one-shot open
listener for its instrument; when the socket opens, every pending listener
fires once in registration order — so the SUB_DATA frame of this command is
sent exactly once, strictly after the transition to OPEN — the listeners
are cleared with the transition, and a further open event resends
nothing. -/
theorem c3_deferred_subscribe (env : Env) (s : RelayState) (id : Nat)
    (instr tok : String) (sock : UpSocket) (hws : s.fyersWS = some sock)
    (hconn : sock.readyState = .CONNECTING) (htok : tok.isEmpty = false) :
    let s1 := step env s (.clientMsg id (.subscribe instr (some tok)))
    let s2 := step env s1 .upstreamOpen
    s1.upstreamSent = s.upstreamSent ∧
    s1.fyersWS = some { sock with pendingOpen := sock.pendingOpen ++ [instr] } ∧
    s2.upstreamSent
      = s.upstreamSent ++ (sock.pendingOpen ++ [instr]).map (fun i => UpMsg.SUB_DATA [i]) ∧
    s2.fyersWS = some ⟨.OPEN, sock.token, []⟩ ∧
    step env s2 .upstreamOpen = s2 := by
  obtain ⟨stk, sws, scs, sus, ssc⟩ := s
  obtain ⟨rs, ktok, pend⟩ := sock
  subst hws
  subst hconn
  refine ⟨?_, ?_, ?_, ?_, ?_⟩ <;>
    simp [step, handleClientMsg, truthy, htok, connectToFyers, connGuard, recordSub]

/-- Closed instance of the C3 theorem. -/
theorem c3_deferred_subscribe_witness :
    (step envA sConnW (.clientMsg 0 (.subscribe "NSE:SBIN-EQ" (some "tok123")))).upstreamSent
      = sConnW.upstreamSent ∧
    (step envA sConnW (.clientMsg 0 (.subscribe "NSE:SBIN-EQ" (some "tok123")))).fyersWS
      = some ⟨.CONNECTING, "tok123", ["NSE:SBIN-EQ"]⟩ ∧
    (step envA (step envA sConnW (.clientMsg 0 (.subscribe "NSE:SBIN-EQ" (some "tok123"))))
        .upstreamOpen).upstreamSent
      = sConnW.upstreamSent ++ [UpMsg.SUB_DATA ["NSE:SBIN-EQ"]] ∧
    (step envA (step envA sConnW (.clientMsg 0 (.subscribe "NSE:SBIN-EQ" (some "tok123"))))
        .upstreamOpen).fyersWS
      = some ⟨.OPEN, "tok123", []⟩ := by
  have h := c3_deferred_subscribe envA sConnW 0 "NSE:SBIN-EQ" "tok123"
    ⟨.CONNECTING, "tok123", []⟩ rfl rfl (by decide)
  exact ⟨h.1, h.2.1, by simpa using h.2.2.1, h.2.2.2.1⟩

/-- A relay state with a CONNECTING upstream socket and one client recorded
as subscribed to one instrument. -/
def sConnU : RelayState :=
  ⟨none, some ⟨.CONNECTING, "tok123", []⟩, [⟨0, ["NSE:SBIN-EQ"], []⟩], [], 1⟩

/-- C4 counterexample: an unsubscribe processed while the upstream socket is
CONNECTING is silently dropped — the unsubscribe branch has no deferral, so
nothing is queued on the socket and no UNSUB_DATA frame is sent when the
connection then reaches OPEN (the claim requires the frame to fire exactly
once at that point). -/
theorem c4_counterexample :
    (step envA sConnU (.clientMsg 0 (.unsubscribe "NSE:SBIN-EQ"))).fyersWS
      = some ⟨.CONNECTING, "tok123", []⟩ ∧
    (step envA sConnU (.clientMsg 0 (.unsubscribe "NSE:SBIN-EQ"))).upstreamSent = [] ∧
    (run envA sConnU [.clientMsg 0 (.unsubscribe "NSE:SBIN-EQ"), .upstreamOpen]).upstreamSent
      = [] := by
  decide

/-- C4 (amended): an unsubscribe processed while the upstream socket is
OPEN immediately sends the UNSUB_DATA frame upstream; an unsubscribe
processed while the socket is in any other state (such as CONNECTING) is
dropped — no frame is sent and nothing is queued on the socket, so no
UNSUB_DATA fires when the connection later reaches OPEN. -/
theorem c4_unsubscribe (env : Env) (s : RelayState) (id : Nat) (instr : String)
    (sock : UpSocket) (hws : s.fyersWS = some sock) :
    (sock.readyState = .OPEN →
      (step env s (.clientMsg id (.unsubscribe instr))).upstreamSent
        = s.upstreamSent ++ [.UNSUB_DATA [instr]]) ∧
    (sock.readyState ≠ .OPEN →
      (step env s (.clientMsg id (.unsubscribe instr))).upstreamSent = s.upstreamSent ∧
      (step env s (.clientMsg id (.unsubscribe instr))).fyersWS = s.fyersWS) := by
  obtain ⟨stk, sws, scs, sus, ssc⟩ := s
  subst hws
  constructor
  · intro ho; simp [step, handleClientMsg, ho]
  · intro ho; simp [step, handleClientMsg, ho]

/-- Closed instance of the amended C4 theorem (the OPEN case). -/
theorem c4_unsubscribe_witness :
    (step envA sOpenW (.clientMsg 0 (.unsubscribe "NSE:SBIN-EQ"))).upstreamSent
      = sOpenW.upstreamSent ++ [.UNSUB_DATA ["NSE:SBIN-EQ"]] :=
  (c4_unsubscribe envA sOpenW 0 "NSE:SBIN-EQ" ⟨.OPEN, "tok123", []⟩ rfl).1 rfl

/-- A well-formed /direct-login request body. -/
def reqA : LoginReq := ⟨some "FY0001", some "1234", some "TOTPSEED"⟩

/-- A provider oracle whose TOTP verification step rejects with a message,
while every other step would succeed. -/
def provC5 : Provider :=
  ⟨.resp ⟨"ok", some "rk1", none, none⟩,
   .resp ⟨"error", none, none, some "Invalid OTP"⟩,
   .resp ⟨"ok", some "rk3", none, none⟩,
   .resp ⟨"ok", none, some "tokXYZ", none⟩⟩

/-- C5 counterexample: when the provider rejects the TOTP step with message
"Invalid OTP", the caller receives status 500 with a body consisting of the
single field `error` valued "Invalid OTP" — the body has no `stage` field
and nothing in it identifies the TOTP stage, while the claim requires a
structured error identifying that stage.  (No token is produced and no
stage-3 request is issued, as the claim also says.) -/
theorem c5_counterexample :
    directLogin envA provC5 reqA none
      = ⟨500, .err "Invalid OTP", none, [.OTP, .TOTP]⟩ ∧
    (directLogin envA provC5 reqA none).body.fieldNames = ["error"] ∧
    "stage" ∉ (directLogin envA provC5 reqA none).body.fieldNames := by
  decide

/-- C5 (amended): if stage 2 (TOTP verification) fails — the provider
reports a non-ok status or omits a truthy request key — then no bearer
token is produced (the stored token is unchanged and the body is an
error), the stage-3 PIN request is never issued, and the caller receives
status 500 with a body whose only field is `error`, carrying the provider
message or the fixed fallback text; the body has no field identifying the
failing stage. -/
theorem c5_totp_failure (env : Env) (prov : Provider) (req : LoginReq)
    (tok : Option String) (r1 r2 : ProviderResp)
    (hf : truthy req.fyersId = true) (hp : truthy req.pin = true)
    (ht : truthy req.totpSecret = true)
    (ha : truthy env.appId = true) (hs : truthy env.secretKey = true)
    (h1 : prov.send_login_otp = .resp r1) (h1s : r1.s = "ok")
    (h1k : truthy r1.request_key = true)
    (h2 : prov.verify_totp = .resp r2)
    (h2f : r2.s ≠ "ok" ∨ truthy r2.request_key = false) :
    directLogin env prov req tok
      = ⟨500, .err (orElseMsg r2.message "TOTP verification failed."), tok, [.OTP, .TOTP]⟩ ∧
    (directLogin env prov req tok).newToken = tok ∧
    Stage.PIN ∉ (directLogin env prov req tok).stagesIssued ∧
    "stage" ∉ (directLogin env prov req tok).body.fieldNames := by
  have hcond : (r2.s != "ok" || !truthy r2.request_key) = true := by
    rcases h2f with h | h <;> simp [h]
  have hmain : directLogin env prov req tok
      = ⟨500, .err (orElseMsg r2.message "TOTP verification failed."), tok, [.OTP, .TOTP]⟩ := by
    simp [directLogin, hf, hp, ht, ha, hs, h1, h1s, h1k, h2, hcond]
  refine ⟨hmain, by rw [hmain], by rw [hmain]; simp,
    by rw [hmain]; simp [LoginBody.fieldNames]⟩

/-- Closed instance of the amended C5 theorem. -/
theorem c5_totp_failure_witness :
    directLogin envA provC5 reqA none
      = ⟨500, .err (orElseMsg (some "Invalid OTP") "TOTP verification failed."),
          none, [.OTP, .TOTP]⟩ ∧
    (directLogin envA provC5 reqA none).newToken = none ∧
    Stage.PIN ∉ (directLogin envA provC5 reqA none).stagesIssued ∧
    "stage" ∉ (directLogin envA provC5 reqA none).body.fieldNames :=
  c5_totp_failure envA provC5 reqA none ⟨"ok", some "rk1", none, none⟩
    ⟨"error", none, none, some "Invalid OTP"⟩ rfl rfl rfl rfl rfl rfl rfl rfl rfl
    (Or.inl (by decide))

/-- C6 counterexample: with both credential env vars absent the startup
sequence still listens (on the default port) — the process does not refuse
to start. -/
theorem c6_counterexample :
    (startServer ⟨none, none, none⟩).started = true ∧
    startServer ⟨none, none, none⟩ = ⟨true, 10000⟩ := by
  decide

/-- C6 (amended): the relay process starts regardless of missing credential
configuration — listening is unconditional — and the absence of the app id
or secret key is surfaced per request instead: a /direct-login request with
a well-formed body is rejected with status 500 and the fixed configuration
error, no provider round-trip is made, and the stored token is kept. -/
theorem c6_unconfigured_start (env : Env) (prov : Provider) (req : LoginReq)
    (tok : Option String)
    (hmiss : truthy env.appId = false ∨ truthy env.secretKey = false)
    (hf : truthy req.fyersId = true) (hp : truthy req.pin = true)
    (ht : truthy req.totpSecret = true) :
    (startServer env).started = true ∧
    directLogin env prov req tok
      = ⟨500, .err "Server is not configured. Missing App ID or Secret Key.", tok, []⟩ := by
  refine ⟨rfl, ?_⟩
  have hcond : (!truthy env.appId || !truthy env.secretKey) = true := by
    rcases hmiss with h | h <;> simp [h]
  simp [directLogin, hf, hp, ht, hcond]

/-- Closed instance of the amended C6 theorem. -/
theorem c6_unconfigured_start_witness :
    (startServer ⟨none, some "SECRETKEY", none⟩).started = true ∧
    directLogin ⟨none, some "SECRETKEY", none⟩ provC5 reqA none
      = ⟨500, .err "Server is not configured. Missing App ID or Secret Key.", none, []⟩ :=
  c6_unconfigured_start ⟨none, some "SECRETKEY", none⟩ provC5 reqA none
    (Or.inl rfl) rfl rfl rfl

/-- A relay state with one registered client, no stored token and no
upstream socket. -/
def sNoTok : RelayState := ⟨none, none, [⟨0, [], []⟩], [], 0⟩

/-- C7 counterexample: the reply sent for a token-less subscribe is the
object with the single field `error` — its serialization has no `type`
field at all, while the claim requires an envelope containing the field
`type` with value "error". -/
theorem c7_counterexample :
    (step envA sNoTok (.clientMsg 0 (.subscribe "NSE:SBIN-EQ" none))).clientSockets
      = [⟨0, [], [.bareError "No access token available for subscription."]⟩] ∧
    "type" ∉ DownMsg.fieldNames (.bareError "No access token available for subscription.") ∧
    DownMsg.fieldNames (.bareError "No access token available for subscription.")
      = ["error"] := by
  decide

/-- C7 (amended): a subscribe command with no token in the message and no
stored process-wide token makes the relay reply to that consumer with the
bare error object (single field `error`, no `type` field) and process the
command no further: nothing else in the state changes — no connect attempt,
no socket creation, no upstream frame, no subscription recording. -/
theorem c7_token_missing (env : Env) (s : RelayState) (id : Nat) (instr : String)
    (msgTok : Option String) (hmsg : truthy msgTok = false)
    (hstore : truthy s.fyersAccessToken = false) :
    step env s (.clientMsg id (.subscribe instr msgTok))
      = { s with clientSockets :=
            (sendToClient s.clientSockets id
              (.bareError "No access token available for subscription.")) } := by
  simp [step, handleClientMsg, hmsg, hstore]

/-- Closed instance of the amended C7 theorem. -/
theorem c7_token_missing_witness :
    step envA sNoTok (.clientMsg 0 (.subscribe "NSE:SBIN-EQ" none))
      = { sNoTok with clientSockets :=
            (sendToClient sNoTok.clientSockets 0
              (.bareError "No access token available for subscription.")) } :=
  c7_token_missing envA sNoTok 0 "NSE:SBIN-EQ" none rfl rfl

/-- C8: when the upstream socket closes — with any close code — the close
handler nulls the socket handle (state back to Disconnected), sends the
fixed envelope with `type` "error" and message "Fyers connection lost." to
every currently registered consumer, and initiates no reconnect: no socket
is constructed and nothing else in the state changes. -/
theorem c8_upstream_close (env : Env) (s : RelayState) (code : Nat) (sock : UpSocket)
    (hws : s.fyersWS = some sock) :
    (step env s (.upstreamClose code)).fyersWS = none ∧
    (step env s (.upstreamClose code)).clientSockets
      = s.clientSockets.map
          (fun c => { c with outbox := c.outbox ++ [.typedError "Fyers connection lost."] }) ∧
    (step env s (.upstreamClose code)).socketsCreated = s.socketsCreated ∧
    (step env s (.upstreamClose code)).upstreamSent = s.upstreamSent ∧
    (step env s (.upstreamClose code)).fyersAccessToken = s.fyersAccessToken := by
  obtain ⟨stk, sws, scs, sus, ssc⟩ := s
  subst hws
  simp [step]

/-- Closed instance of the C8 theorem at close code 1006. -/
theorem c8_upstream_close_witness :
    (step envA sOpenW (.upstreamClose 1006)).fyersWS = none ∧
    (step envA sOpenW (.upstreamClose 1006)).clientSockets
      = sOpenW.clientSockets.map
          (fun c => { c with outbox := c.outbox ++ [.typedError "Fyers connection lost."] }) ∧
    (step envA sOpenW (.upstreamClose 1006)).socketsCreated = sOpenW.socketsCreated ∧
    (step envA sOpenW (.upstreamClose 1006)).upstreamSent = sOpenW.upstreamSent ∧
    (step envA sOpenW (.upstreamClose 1006)).fyersAccessToken = sOpenW.fyersAccessToken :=
  c8_upstream_close envA sOpenW 1006 ⟨.OPEN, "tok123", []⟩ rfl

/-- C9 counterexample: the frame [32, 1] has a single well-formed field
whose field number is 4 — a field number outside the three-field schema,
one of the malformed shapes the claim enumerates — yet decoding does not
fail: unknown fields are skipped, the frame decodes to the all-zero default
message, and the frame handler broadcasts that tick to the consumers
instead of dropping the frame. -/
theorem c9_counterexample :
    frameFieldNumbers [32, 1] = some [4] ∧
    MarketData.decode [32, 1] = .ok ⟨0, 0, 0⟩ ∧
    (step envA sOpenW (.upstreamFrame [32, 1])).clientSockets
      = [⟨0, ["NSE:SBIN-EQ"], [.tick ⟨0, 0, 0⟩]⟩, ⟨1, [], [.tick ⟨0, 0, 0⟩]⟩] := by
  decide

/-- C9 (amended): whenever decoding an upstream binary frame fails (for
example a truncated varint or double, or an invalid wire type), the error
is caught inside the frame handler: the frame is dropped and the relay
state — the upstream handle, every consumer outbox, everything — is
unchanged, so the upstream connection stays open and nothing is broadcast
for that frame.  However, a malformed frame whose fields merely carry
unknown field numbers with valid wire structure does not fail: it decodes
to a default-valued tick (unknown fields are skipped) and is broadcast. -/
theorem c9_decode_error_dropped (env : Env) (s : RelayState) (frame : List Nat)
    (e : DecodeError) (hdec : MarketData.decode frame = .error e) :
    step env s (.upstreamFrame frame) = s := by
  obtain ⟨stk, sws, scs, sus, ssc⟩ := s
  cases sws with
  | none => rfl
  | some sock =>
    by_cases hrs : sock.readyState = .OPEN
    · simp [step, hrs, hdec]
    · simp [step, hrs]

/-- Closed instance of the amended C9 theorem on a truncated frame. -/
theorem c9_decode_error_dropped_witness :
    step envA sOpenW (.upstreamFrame [8]) = sOpenW :=
  c9_decode_error_dropped envA sOpenW [8] .truncated (by decide)

/-- A provider oracle for which all four login stages succeed. -/
def provOK : Provider :=
  ⟨.resp ⟨"ok", some "rk1", none, none⟩,
   .resp ⟨"ok", some "rk2", none, none⟩,
   .resp ⟨"ok", some "rk3", none, none⟩,
   .resp ⟨"ok", none, some "tokXYZ", none⟩⟩

/-- C10: the stored process-wide access token survives every failed
/direct-login request — whenever the token after a request differs from the
token before it, the request succeeded end to end: all four provider stages
were issued in order, stage 4 resolved with an ok status and a truthy
access token, the caller got status 200, and the new stored token is
exactly that access token. -/
theorem c10_token_stability (env : Env) (prov : Provider) (req : LoginReq)
    (tok : Option String)
    (hch : (directLogin env prov req tok).newToken ≠ tok) :
    (directLogin env prov req tok).status = 200 ∧
    (directLogin env prov req tok).stagesIssued = [.OTP, .TOTP, .PIN, .TOKEN] ∧
    ∃ r4, prov.access_token = .resp r4 ∧ r4.s = "ok" ∧ truthy r4.access_token = true ∧
      (directLogin env prov req tok).newToken = some (r4.access_token.getD "") := by
  by_cases hb1 : (!truthy req.fyersId || !truthy req.pin || !truthy req.totpSecret) = true
  · simp [directLogin, hb1] at hch
  · rw [Bool.not_eq_true] at hb1
    by_cases hb2 : (!truthy env.appId || !truthy env.secretKey) = true
    · simp [directLogin, hb1, hb2] at hch
    · rw [Bool.not_eq_true] at hb2
      rcases h1 : prov.send_login_otp with r1 | m1
      · by_cases hc1 : (r1.s != "ok" || !truthy r1.request_key) = true
        · simp [directLogin, hb1, hb2, h1, hc1] at hch
        · rw [Bool.not_eq_true] at hc1
          rcases h2 : prov.verify_totp with r2 | m2
          · by_cases hc2 : (r2.s != "ok" || !truthy r2.request_key) = true
            · simp [directLogin, hb1, hb2, h1, hc1, h2, hc2] at hch
            · rw [Bool.not_eq_true] at hc2
              rcases h3 : prov.verify_pin with r3 | m3
              · by_cases hc3 : (r3.s != "ok" || !truthy r3.request_key) = true
                · simp [directLogin, hb1, hb2, h1, hc1, h2, hc2, h3, hc3] at hch
                · rw [Bool.not_eq_true] at hc3
                  rcases h4 : prov.access_token with r4 | m4
                  · by_cases hc4 : (r4.s != "ok" || !truthy r4.access_token) = true
                    · simp [directLogin, hb1, hb2, h1, hc1, h2, hc2, h3, hc3, h4, hc4] at hch
                    · rw [Bool.not_eq_true] at hc4
                      have hc4s : r4.s = "ok" ∧ truthy r4.access_token = true := by
                        constructor
                        · by_contra hne
                          simp [hne] at hc4
                        · by_contra hne
                          rw [Bool.not_eq_true] at hne
                          simp [hne] at hc4
                      refine ⟨?_, ?_, r4, rfl, hc4s.1, hc4s.2, ?_⟩ <;>
                        simp [directLogin, hb1, hb2, h1, hc1, h2, hc2, h3, hc3, h4, hc4]
                  · simp [directLogin, hb1, hb2, h1, hc1, h2, hc2, h3, hc3, h4] at hch
              · simp [directLogin, hb1, hb2, h1, hc1, h2, hc2, h3] at hch
          · simp [directLogin, hb1, hb2, h1, hc1, h2] at hch
      · simp [directLogin, hb1, hb2, h1] at hch

/-- Closed instance of the C10 theorem: a fully successful login is the
only way the stored token changes. -/
theorem c10_token_stability_witness :
    (directLogin envA provOK reqA none).status = 200 ∧
    (directLogin envA provOK reqA none).stagesIssued = [.OTP, .TOTP, .PIN, .TOKEN] :=
  ⟨(c10_token_stability envA provOK reqA none (by decide)).1,
   (c10_token_stability envA provOK reqA none (by decide)).2.1⟩

end FyersProxy
